import Mathlib

/-!
Shallow embedding of `src/app.py` (AI Home Tutor): the Groq completion
wrapper `groq_chat`, the three prompt templates (`ask_tutor`,
`generate_story`, `crew_ai_helper_using_groq`) and the PDF text
preparation in `generate_pdf`.

The remote endpoint is modelled as an oracle mapping the 0-indexed
attempt number to either a raised exception (`Except.error`) or a
response object (`Except.ok`).  `groq_chat` returns the value the Python
function returns (`none` models Python `None`, `some s` a returned
string) together with the list of observable effects it performed, in
order: one `request` event per call to
`client.chat.completions.create`, and one `sleep` event per backoff
`time.sleep`.  Durations are rationals: Python's `0.8 + attempt * 0.5`
becomes `8/10 + attempt * (5/10)`.
-/

/-- Model of a Python exception as observed by `groq_chat`: `msg` is
`str(e)` and `tb` is `traceback.format_exc()`. -/
structure PyExn where
  msg : String
  tb : String
deriving DecidableEq

/-- Model of the `message` field of the first choice: the code treats it
as either object-like (attribute `content`, possibly `None`) or
dict-like.  A dict has no `content` attribute, so `getattr(message,
"content", None)` is `None` for it; Python truthiness of a dict is its
non-emptiness, recorded in the `nonempty` flag, while an object is
always truthy.  `getContent` is the value `message.get("content")`
returns for a dict (`none` when the key is missing). -/
inductive PyMessage where
  | obj (content : Option String)
  | dict (nonempty : Bool) (getContent : Option String)
deriving DecidableEq

/-- Python truthiness of the `message` value (`if message:`). -/
def PyMessage.truthy : PyMessage → Bool
  | .obj _ => true
  | .dict ne _ => ne

/-- Model of `getattr(message, "content", None)`. -/
def PyMessage.getattrContent : PyMessage → Option String
  | .obj c => c
  | .dict _ _ => none

/-- Model of `isinstance(message, dict)`. -/
def PyMessage.isDict : PyMessage → Bool
  | .obj _ => false
  | .dict _ _ => true

/-- Model of `message.get("content")` on a dict-like message. -/
def PyMessage.dictGet : PyMessage → Option String
  | .obj _ => none
  | .dict _ g => g

/-- Model of one element of `resp.choices`: `message` is
`getattr(first, "message", None)` (`none` when the attribute is absent
or `None`), `textAttr` / `contentAttr` record whether
`hasattr(first, "text")` / `hasattr(first, "content")` hold and, if so,
the attribute value. -/
structure PyChoice where
  message : Option PyMessage
  textAttr : Option String
  contentAttr : Option String
deriving DecidableEq

/-- Model of the response object: `choices` is
`getattr(resp, "choices", None)` and `raw` is `str(resp)`. -/
structure PyResp where
  choices : Option (List PyChoice)
  raw : String
deriving DecidableEq

/-- The `for attr in ("text", "content")` fallback loop of `groq_chat`
followed by the final `return str(resp)`. -/
def attrFallback (first : PyChoice) (raw : String) : String :=
  match first.textAttr with
  | some t => t
  | none =>
    match first.contentAttr with
    | some c => c
    | none => raw

/-- The robust extraction block of `groq_chat` (src/app.py lines 37-55):
if `choices` is truthy, look at the first choice; a truthy `message`
with a truthy `content` attribute yields that content; a dict-like
message yields `message.get("content", str(resp))`; otherwise the
`text`/`content` attributes of the first choice are tried; the last
fallback is `str(resp)`. -/
def extractText (resp : PyResp) : String :=
  match resp.choices with
  | some (first :: _) =>
    match first.message with
    | some m =>
      if m.truthy then
        match m.getattrContent with
        | some c =>
          if c ≠ "" then c
          else if m.isDict then (m.dictGet).getD resp.raw else attrFallback first resp.raw
        | none =>
          if m.isDict then (m.dictGet).getD resp.raw else attrFallback first resp.raw
      else attrFallback first resp.raw
    | none => attrFallback first resp.raw
  | _ => resp.raw

/-- The payload of one call to `client.chat.completions.create`. -/
structure ChatRequest where
  model : String
  messages : List (String × String)
  temperature : ℚ
deriving DecidableEq

/-- Observable effect of `groq_chat`: one network request (with its
0-indexed attempt number and payload) or one backoff sleep (duration in
seconds). -/
inductive GroqEvent where
  | request (attempt : Nat) (req : ChatRequest)
  | sleep (seconds : ℚ)
deriving DecidableEq

/-- Whether an event is a network request. -/
def GroqEvent.isRequest : GroqEvent → Bool
  | .request _ _ => true
  | .sleep _ => false

/-- Number of network requests in an event trace. -/
def requestCount (evs : List GroqEvent) : Nat :=
  (evs.filter GroqEvent.isRequest).length

/-- Backoff duration of `time.sleep(0.8 + attempt * 0.5)`. -/
def backoff (attempt : Nat) : ℚ :=
  8/10 + (attempt : ℚ) * (5/10)

/-- The sentinel returned when the Groq client is not configured. -/
def notConfiguredMsg : String :=
  "Groq client not configured. Set GROQ_API_KEY in .env."

/-- The retry loop `for attempt in range(max_retries + 1)` of
`groq_chat`, starting at attempt number `attempt` with `fuel` loop
iterations remaining.  Falling off the end of the loop (fuel exhausted)
returns Python `None`, modelled as `none`. -/
def groqAttempts (endpoint : Nat → Except PyExn PyResp) (prompt model : String)
    (temperature : ℚ) (max_retries : Int) (attempt : Nat) (fuel : Nat) :
    Option String × List GroqEvent :=
  match fuel with
  | 0 => (none, [])
  | Nat.succ fuel' =>
    let req : ChatRequest := ⟨model, [("user", prompt)], temperature⟩
    match endpoint attempt with
    | .ok resp => (some (extractText resp), [.request attempt req])
    | .error e =>
      if (attempt : Int) < max_retries then
        let rest := groqAttempts endpoint prompt model temperature max_retries (attempt + 1) fuel'
        (rest.1, .request attempt req :: .sleep (backoff attempt) :: rest.2)
      else
        (some ("Groq request failed: " ++ e.msg ++ "\n" ++ e.tb), [.request attempt req])

/-- Model of `groq_chat(prompt, model, temperature, max_retries)`:
`configured` is the truthiness of the module-level `client`
(i.e. whether `GROQ_API_KEY` was set).  The loop runs
`max_retries + 1` iterations; a negative `max_retries` makes
`range(max_retries + 1)` empty. -/
def groq_chat (configured : Bool) (endpoint : Nat → Except PyExn PyResp)
    (prompt model : String) (temperature : ℚ) (max_retries : Int) :
    Option String × List GroqEvent :=
  if configured then
    groqAttempts endpoint prompt model temperature max_retries 0 (max_retries + 1).toNat
  else
    (some notConfiguredMsg, [])

/-- Default value of the `model` parameter of `groq_chat`. -/
def defaultModel : String := "llama-3.1-8b-instant"

/-- The fixed system instruction of `ask_tutor`. -/
def tutorSystem : String :=
  "You are a friendly, safe AI home tutor for kids aged 6–14. " ++
  "Explain concepts simply using short sentences, examples, and emojis. " ++
  "Keep tone positive and age-appropriate. Include a 2–3 question mini-quiz at the end."

/-- The `full_prompt` built by `ask_tutor`. -/
def ask_tutor_full_prompt (prompt : String) : String :=
  tutorSystem ++ "\n\nUser request:\n" ++ prompt

/-- Model of `ask_tutor(prompt)`: forwards the assembled full prompt to
`groq_chat` with temperature 0.5 and the default model and retries. -/
def ask_tutor (configured : Bool) (endpoint : Nat → Except PyExn PyResp)
    (prompt : String) : Option String × List GroqEvent :=
  groq_chat configured endpoint (ask_tutor_full_prompt prompt) defaultModel (5/10) 2

/-- The fixed system instruction of `generate_story`.  The apostrophe of
the source text is spliced in as the character of code 39. -/
def storySystem : String :=
  "You are a kids" ++ String.singleton (Char.ofNat 39) ++
  " story writer. Write safe, fun, simple, moral-based stories for ages 4–12. " ++
  "Use emojis, short paragraphs, friendly dialogue, and end with a clear moral."

/-- The `full_prompt` built by `generate_story`. -/
def generate_story_full_prompt (prompt : String) : String :=
  storySystem ++ "\n\nStory request:\n" ++ prompt

/-- Model of `generate_story(prompt)`: forwards the assembled full
prompt to `groq_chat` with temperature 0.8. -/
def generate_story (configured : Bool) (endpoint : Nat → Except PyExn PyResp)
    (prompt : String) : Option String × List GroqEvent :=
  groq_chat configured endpoint (generate_story_full_prompt prompt) defaultModel (8/10) 2

/-- The fixed base system instruction of `crew_ai_helper_using_groq`. -/
def crewBaseSystem : String :=
  "You are a helpful multi-step assistant (Crew-like). Break down the task, " ++
  "give step-by-step guidance, and provide a short actionable result."

/-- Python truthiness of an optional string parameter (`if role_hint:`):
`None` and the empty string are falsy. -/
def pyStrOptTruthy : Option String → Bool
  | none => false
  | some s => !s.isEmpty

/-- The `system` string built by `crew_ai_helper_using_groq`: the role
hint is appended exactly when `role_hint` is truthy. -/
def crew_system (role_hint : Option String) : String :=
  if pyStrOptTruthy role_hint then
    crewBaseSystem ++ " You should act as: " ++ role_hint.getD "" ++ "."
  else
    crewBaseSystem

/-- The `prompt` built by `crew_ai_helper_using_groq`. -/
def crew_full_prompt (user_query : String) (role_hint : Option String) : String :=
  crew_system role_hint ++ "\n\nUser request:\n" ++ user_query ++
    "\n\nReturn a clear step-by-step plan and a short concise answer."

/-- Model of `crew_ai_helper_using_groq(user_query, role_hint)`:
forwards the assembled prompt to `groq_chat` with temperature 0.45. -/
def crew_ai_helper_using_groq (configured : Bool) (endpoint : Nat → Except PyExn PyResp)
    (user_query : String) (role_hint : Option String) : Option String × List GroqEvent :=
  groq_chat configured endpoint (crew_full_prompt user_query role_hint) defaultModel (45/100) 2

/-- Expansion of one character under `xml.sax.saxutils.escape`.  The
Python function replaces `&` first and then `<` and `>`, which is
equivalent to this character-wise expansion because the replacement
entities contain no character that a later pass rewrites into a new
entity occurrence overlapping the original text. -/
def escapeChar (c : Char) : List Char :=
  if c = '&' then "&amp;".data
  else if c = '<' then "&lt;".data
  else if c = '>' then "&gt;".data
  else [c]

/-- Character-list version of `xml.sax.saxutils.escape`. -/
def escapeList : List Char → List Char
  | [] => []
  | c :: cs => escapeChar c ++ escapeList cs

/-- Model of `xml.sax.saxutils.escape` on strings. -/
def escape (s : String) : String := ⟨escapeList s.data⟩

/-- Replacement of every occurrence of the single character `pat` by the
character list `rep`; for a one-character pattern this is exactly
Python's `str.replace`. -/
def replaceCharList (pat : Char) (rep : List Char) : List Char → List Char
  | [] => []
  | c :: cs => (if c = pat then rep else [c]) ++ replaceCharList pat rep cs

/-- Model of `s.replace(pat, rep)` for a one-character pattern. -/
def pyReplaceChar (s : String) (pat : Char) (rep : String) : String :=
  ⟨replaceCharList pat rep.data s.data⟩

/-- The two Paragraph texts that `generate_pdf` submits to the ReportLab
layout engine: the escaped title, and the escaped body with every line
break replaced by the `<br/>` marker. -/
structure PdfDoc where
  titleText : String
  bodyText : String
deriving DecidableEq

/-- Model of `generate_pdf(title, body)`, restricted to the text content
handed to the layout engine (pagination, margins, fonts and colors are
the external collaborator's concern). -/
def generate_pdf (title body : String) : PdfDoc :=
  { titleText := escape title
    bodyText := pyReplaceChar (escape body) '\n' "<br/>" }

/-! Shared lemmas about the retry loop. -/

lemma toNat_cast_succ (r : Nat) : ((r : Int) + 1).toNat = r + 1 := by omega

lemma groqAttempts_isSome (endpoint : Nat → Except PyExn PyResp) (p m : String) (t : ℚ)
    (mr : Int) :
    ∀ (fuel s : Nat), mr + 1 ≤ (s : Int) + fuel → 0 < fuel →
      ((groqAttempts endpoint p m t mr s fuel).1).isSome = true := by
  intro fuel
  induction fuel with
  | zero => intro s _ h; exact absurd h (by omega)
  | succ f ih =>
    intro s hle _
    unfold groqAttempts
    cases hend : endpoint s with
    | ok resp => simp
    | error e =>
      by_cases hlt : (s : Int) < mr
      · simp only [hlt, if_true]
        exact ih (s + 1) (by push_cast; push_cast at hle; omega)
          (by push_cast at hle; omega)
      · simp [hlt]

lemma groq_chat_first_ok (endpoint : Nat → Except PyExn PyResp) (p m : String) (t : ℚ)
    (r : Nat) (resp : PyResp) (h : endpoint 0 = Except.ok resp) :
    groq_chat true endpoint p m t (r : Int) =
      (some (extractText resp), [.request 0 ⟨m, [("user", p)], t⟩]) := by
  unfold groq_chat
  rw [if_pos rfl, toNat_cast_succ]
  simp [groqAttempts, h]

lemma groqAttempts_succ_ok (endpoint : Nat → Except PyExn PyResp) (p m : String) (t : ℚ)
    (mr : Int) (s f : Nat) (resp : PyResp) (h : endpoint s = Except.ok resp) :
    groqAttempts endpoint p m t mr s (f + 1) =
      (some (extractText resp), [.request s ⟨m, [("user", p)], t⟩]) := by
  simp [groqAttempts, h]

lemma groqAttempts_succ_error (endpoint : Nat → Except PyExn PyResp) (p m : String) (t : ℚ)
    (mr : Int) (s f : Nat) (e : PyExn) (h : endpoint s = Except.error e) :
    groqAttempts endpoint p m t mr s (f + 1) =
      if (s : Int) < mr then
        ((groqAttempts endpoint p m t mr (s + 1) f).1,
          .request s ⟨m, [("user", p)], t⟩ :: .sleep (backoff s) ::
            (groqAttempts endpoint p m t mr (s + 1) f).2)
      else
        (some ("Groq request failed: " ++ e.msg ++ "\n" ++ e.tb),
          [.request s ⟨m, [("user", p)], t⟩]) := by
  by_cases hlt : (s : Int) < mr <;> simp [groqAttempts, h, hlt]

lemma requestCount_nil : requestCount [] = 0 := rfl

lemma requestCount_cons_request (a : Nat) (q : ChatRequest) (l : List GroqEvent) :
    requestCount (.request a q :: l) = requestCount l + 1 := by
  simp [requestCount, List.filter_cons, GroqEvent.isRequest]

lemma requestCount_cons_sleep (d : ℚ) (l : List GroqEvent) :
    requestCount (.sleep d :: l) = requestCount l := by
  simp [requestCount, List.filter_cons, GroqEvent.isRequest]

lemma groqAttempts_allFail (endpoint : Nat → Except PyExn PyResp) (p m : String) (t : ℚ)
    (r : Nat) :
    ∀ (fuel s : Nat), s + fuel = r + 1 → s ≤ r →
      (∀ i, s ≤ i → i ≤ r → ∃ e, endpoint i = Except.error e) →
      requestCount (groqAttempts endpoint p m t (r : Int) s fuel).2 = fuel ∧
      ∀ e, endpoint r = Except.error e →
        (groqAttempts endpoint p m t (r : Int) s fuel).1 =
          some ("Groq request failed: " ++ e.msg ++ "\n" ++ e.tb) := by
  intro fuel
  induction fuel with
  | zero => intro s hsum hs _; exfalso; omega
  | succ f ih =>
    intro s hsum hs hfail
    obtain ⟨e, he⟩ := hfail s le_rfl hs
    rw [groqAttempts_succ_error endpoint p m t (r : Int) s f e he]
    by_cases hlt : s < r
    · rw [if_pos (by exact_mod_cast hlt)]
      obtain ⟨ihc, ihr⟩ := ih (s + 1) (by omega) (by omega)
        (fun i h1 h2 => hfail i (by omega) h2)
      refine ⟨?_, ihr⟩
      rw [requestCount_cons_request, requestCount_cons_sleep, ihc]
    · have hsr : s = r := by omega
      rw [if_neg (by exact_mod_cast hlt)]
      have hf0 : f = 0 := by omega
      refine ⟨by rw [requestCount_cons_request, requestCount_nil, hf0], ?_⟩
      intro e' he'
      rw [hsr] at he
      rw [he] at he'
      cases he'
      rfl

/-- C1: with a configured client and `max_retries = r ≥ 0`, an endpoint
that raises on every attempt is called exactly `r + 1` times, and
`groq_chat` returns (instead of raising) a string containing the final
attempt's error description followed by its diagnostic traceback. -/
theorem groq_chat_retry_exhaustion (endpoint : Nat → Except PyExn PyResp)
    (p m : String) (t : ℚ) (r : Nat)
    (hfail : ∀ i, ∃ e, endpoint i = Except.error e) :
    requestCount (groq_chat true endpoint p m t (r : Int)).2 = r + 1 ∧
    ∃ (e : PyExn) (s₁ s₂ : String), endpoint r = Except.error e ∧
      (groq_chat true endpoint p m t (r : Int)).1 = some (s₁ ++ e.msg ++ s₂ ++ e.tb) := by
  unfold groq_chat
  rw [if_pos rfl, toNat_cast_succ]
  obtain ⟨hcount, hres⟩ := groqAttempts_allFail endpoint p m t r (r + 1) 0 (by omega)
    (by omega) (fun i _ _ => hfail i)
  obtain ⟨e, he⟩ := hfail r
  exact ⟨hcount, e, "Groq request failed: ", "\n", he, hres e he⟩

theorem groq_chat_retry_exhaustion_witness :
    requestCount (groq_chat true (fun _ => Except.error ⟨"boom", "tb"⟩)
        "p" "m" 0 ((1 : Nat) : Int)).2 = 1 + 1 ∧
    ∃ (e : PyExn) (s₁ s₂ : String),
      (Except.error ⟨"boom", "tb"⟩ : Except PyExn PyResp) = Except.error e ∧
      (groq_chat true (fun _ => Except.error ⟨"boom", "tb"⟩)
          "p" "m" 0 ((1 : Nat) : Int)).1 = some (s₁ ++ e.msg ++ s₂ ++ e.tb) :=
  groq_chat_retry_exhaustion _ "p" "m" 0 1 (fun _ => ⟨⟨"boom", "tb"⟩, rfl⟩)

lemma sleep_mem_groqAttempts (endpoint : Nat → Except PyExn PyResp) (p m : String) (t : ℚ)
    (r : Nat) :
    ∀ (fuel s : Nat), s + fuel = r + 1 → s ≤ r → ∀ (d : ℚ),
      (GroqEvent.sleep d ∈ (groqAttempts endpoint p m t (r : Int) s fuel).2 ↔
        ∃ a : Nat, d = backoff a ∧ s ≤ a ∧ a < r ∧
          ∀ i, s ≤ i → i ≤ a → ∃ e, endpoint i = Except.error e) := by
  intro fuel
  induction fuel with
  | zero => intro s hsum hs _; exfalso; omega
  | succ f ih =>
    intro s hsum hs d
    cases hend : endpoint s with
    | ok resp =>
      rw [groqAttempts_succ_ok endpoint p m t (r : Int) s f resp hend]
      simp only [List.mem_singleton]
      constructor
      · intro hmem; exact absurd hmem (by simp)
      · rintro ⟨a, _, h1, _, h3⟩
        obtain ⟨e, he⟩ := h3 s le_rfl h1
        rw [hend] at he
        exact absurd he (by simp)
    | error e =>
      rw [groqAttempts_succ_error endpoint p m t (r : Int) s f e hend]
      by_cases hlt : s < r
      · rw [if_pos (by exact_mod_cast hlt)]
        simp only [List.mem_cons]
        have ihs := ih (s + 1) (by omega) (by omega) d
        constructor
        · rintro (habs | hsleep | hmem)
          · exact absurd habs (by simp)
          · have hd : d = backoff s := by
              injection hsleep
            exact ⟨s, hd, le_rfl, hlt, fun i h1 h2 => by
              have : i = s := by omega
              rw [this]; exact ⟨e, hend⟩⟩
          · obtain ⟨a, hd, h1, h2, h3⟩ := ihs.mp hmem
            refine ⟨a, hd, by omega, h2, fun i hi1 hi2 => ?_⟩
            by_cases hi : i = s
            · rw [hi]; exact ⟨e, hend⟩
            · exact h3 i (by omega) hi2
        · rintro ⟨a, hd, h1, h2, h3⟩
          by_cases ha : a = s
          · right; left; rw [hd, ha]
          · right; right
            exact ihs.mpr ⟨a, hd, by omega, h2, fun i hi1 hi2 => h3 i (by omega) hi2⟩
      · have hsr : s = r := by omega
        rw [if_neg (by exact_mod_cast hlt)]
        simp only [List.mem_singleton]
        constructor
        · intro hmem; exact absurd hmem (by simp)
        · rintro ⟨a, _, h1, h2, _⟩; exfalso; omega

/-- C6: the backoff behavior of `groq_chat` with `max_retries = r ≥ 0`:
a sleep of duration `0.8 + a * 0.5` seconds appears in the effect trace
exactly when the 0-indexed attempt `a` was reached and failed (every
attempt up to `a` raised) and attempts remained (`a < r`); no sleep
follows the final attempt or a successful attempt, and no sleep of any
other duration ever occurs. -/
theorem groq_chat_backoff_sleep (endpoint : Nat → Except PyExn PyResp)
    (p m : String) (t : ℚ) (r : Nat) (d : ℚ) :
    GroqEvent.sleep d ∈ (groq_chat true endpoint p m t (r : Int)).2 ↔
      ∃ a : Nat, d = backoff a ∧ a < r ∧
        ∀ i, i ≤ a → ∃ e, endpoint i = Except.error e := by
  unfold groq_chat
  rw [if_pos rfl, toNat_cast_succ]
  rw [sleep_mem_groqAttempts endpoint p m t r (r + 1) 0 (by omega) (by omega) d]
  constructor
  · rintro ⟨a, hd, _, h2, h3⟩
    exact ⟨a, hd, h2, fun i hi => h3 i (by omega) hi⟩
  · rintro ⟨a, hd, h2, h3⟩
    exact ⟨a, hd, by omega, h2, fun i _ hi => h3 i hi⟩

theorem groq_chat_backoff_sleep_witness :
    GroqEvent.sleep (backoff 0) ∈
      (groq_chat true (fun _ => Except.error ⟨"boom", "tb"⟩)
        "p" "m" 0 ((2 : Nat) : Int)).2 :=
  (groq_chat_backoff_sleep _ "p" "m" 0 2 (backoff 0)).mpr
    ⟨0, rfl, by decide, fun _ _ => ⟨⟨"boom", "tb"⟩, rfl⟩⟩

/-- C2: for every configuration, endpoint behavior (success, raised
exception, any response shape), prompt, model, temperature and
`max_retries ≥ 0`, `groq_chat` returns a value (never `none`): the
failure path and the misconfiguration path both end in a returned
string, so no exception propagates to the caller. -/
theorem groq_chat_always_returns (configured : Bool) (endpoint : Nat → Except PyExn PyResp)
    (p m : String) (t : ℚ) (r : Nat) :
    ((groq_chat configured endpoint p m t (r : Int)).1).isSome = true := by
  cases configured with
  | false => rfl
  | true =>
    unfold groq_chat
    rw [if_pos rfl, toNat_cast_succ]
    exact groqAttempts_isSome endpoint p m t r (r + 1) 0 (by push_cast; omega) (by omega)

/-- C4: with no API credential configured, `groq_chat` returns the fixed
configuration-error sentinel and its effect trace is empty: zero
requests and zero backoff sleeps, for every prompt, model, temperature
and `max_retries`. -/
theorem groq_chat_not_configured (endpoint : Nat → Except PyExn PyResp)
    (p m : String) (t : ℚ) (mr : Int) :
    groq_chat false endpoint p m t mr = (some notConfiguredMsg, []) := rfl

/-- C9: the output of `groq_chat` is a function of its declared inputs
only; two calls against endpoint oracles with identical behavior (two
successive runs of a deterministic stub) produce identical results, so
no hidden state can make a second call differ from the first. -/
theorem groq_chat_deterministic (configured : Bool)
    (endpointA endpointB : Nat → Except PyExn PyResp) (p m : String) (t : ℚ) (mr : Int)
    (h : ∀ i, endpointA i = endpointB i) :
    groq_chat configured endpointA p m t mr = groq_chat configured endpointB p m t mr := by
  have he : endpointA = endpointB := funext h
  rw [he]

theorem groq_chat_deterministic_witness :
    groq_chat true (fun _ => Except.error ⟨"boom", "trace"⟩) "p" "m" 0 2 =
      groq_chat true (fun _ => Except.error ⟨"boom", "trace"⟩) "p" "m" 0 2 :=
  groq_chat_deterministic true _ _ "p" "m" 0 2 (fun _ => rfl)

/-- C10: with a credential configured but `max_retries < 0`, the loop
`for attempt in range(max_retries + 1)` runs zero iterations, so
`groq_chat` issues no request, performs no sleep, and falls off the end
of the function, returning Python `None` rather than a string. -/
theorem groq_chat_negative_max_retries (endpoint : Nat → Except PyExn PyResp)
    (p m : String) (t : ℚ) (mr : Int) (h : mr < 0) :
    groq_chat true endpoint p m t mr = (none, []) := by
  unfold groq_chat
  have h0 : (mr + 1).toNat = 0 := by omega
  rw [if_pos rfl, h0]
  rfl

theorem groq_chat_negative_max_retries_witness :
    groq_chat true (fun _ => Except.error ⟨"boom", "trace"⟩) "p" "m" 0 (-1) = (none, []) :=
  groq_chat_negative_max_retries _ "p" "m" 0 (-1) (by decide)

lemma request_payload_groqAttempts (endpoint : Nat → Except PyExn PyResp)
    (p m : String) (t : ℚ) (mr : Int) :
    ∀ (fuel s : Nat) (a : Nat) (req : ChatRequest),
      GroqEvent.request a req ∈ (groqAttempts endpoint p m t mr s fuel).2 →
      req = ⟨m, [("user", p)], t⟩ := by
  intro fuel
  induction fuel with
  | zero => intro s a req h; simp [groqAttempts] at h
  | succ f ih =>
    intro s a req h
    cases hend : endpoint s with
    | ok resp =>
      rw [groqAttempts_succ_ok endpoint p m t mr s f resp hend] at h
      simp only [List.mem_singleton, GroqEvent.request.injEq] at h
      exact h.2
    | error e =>
      rw [groqAttempts_succ_error endpoint p m t mr s f e hend] at h
      by_cases hlt : (s : Int) < mr
      · rw [if_pos hlt] at h
        simp only [List.mem_cons] at h
        rcases h with h | h | h
        · injection h
        · exact absurd h (by simp)
        · exact ih (s + 1) a req h
      · rw [if_neg hlt] at h
        simp only [List.mem_singleton, GroqEvent.request.injEq] at h
        exact h.2

lemma request_payload_groq_chat (configured : Bool) (endpoint : Nat → Except PyExn PyResp)
    (p m : String) (t : ℚ) (mr : Int) (a : Nat) (req : ChatRequest)
    (h : GroqEvent.request a req ∈ (groq_chat configured endpoint p m t mr).2) :
    req = ⟨m, [("user", p)], t⟩ := by
  cases configured with
  | false => exact absurd h (by simp [groq_chat])
  | true =>
    unfold groq_chat at h
    rw [if_pos rfl] at h
    exact request_payload_groqAttempts endpoint p m t mr _ _ a req h

/-- C5, counterexample: the helper template's submitted text does not
end with the user's verbatim request; for the request `"hello"` without
a role hint, the submitted text ends with the fixed closing instruction
instead. -/
theorem crew_full_prompt_not_query_ended :
    ¬ ("hello".data <:+ (crew_full_prompt "hello" none).data) := by decide

/-- C5 (amended): the tutor and story templates submit text that begins
with the template's fixed system instruction and ends with the user's
verbatim request; the helper template submits text that begins with its
fixed system instruction and contains the user's verbatim request, but
ends with the fixed closing instruction rather than with the request;
and every network request issued by any of the three carries exactly the
template's assembled text as the single user-role message. -/
theorem prompt_templates_structure :
    (∀ p : String, tutorSystem.data <+: (ask_tutor_full_prompt p).data ∧
      p.data <:+ (ask_tutor_full_prompt p).data) ∧
    (∀ p : String, storySystem.data <+: (generate_story_full_prompt p).data ∧
      p.data <:+ (generate_story_full_prompt p).data) ∧
    (∀ (q : String) (rh : Option String),
      crewBaseSystem.data <+: (crew_full_prompt q rh).data ∧
      q.data <:+: (crew_full_prompt q rh).data ∧
      "\n\nReturn a clear step-by-step plan and a short concise answer.".data <:+
        (crew_full_prompt q rh).data) ∧
    (∀ (configured : Bool) (endpoint : Nat → Except PyExn PyResp) (p : String)
        (a : Nat) (req : ChatRequest),
      GroqEvent.request a req ∈ (ask_tutor configured endpoint p).2 →
      req.messages = [("user", ask_tutor_full_prompt p)]) ∧
    (∀ (configured : Bool) (endpoint : Nat → Except PyExn PyResp) (p : String)
        (a : Nat) (req : ChatRequest),
      GroqEvent.request a req ∈ (generate_story configured endpoint p).2 →
      req.messages = [("user", generate_story_full_prompt p)]) ∧
    (∀ (configured : Bool) (endpoint : Nat → Except PyExn PyResp) (q : String)
        (rh : Option String) (a : Nat) (req : ChatRequest),
      GroqEvent.request a req ∈ (crew_ai_helper_using_groq configured endpoint q rh).2 →
      req.messages = [("user", crew_full_prompt q rh)]) := by
  refine ⟨?_, ?_, ?_, ?_, ?_, ?_⟩
  · intro p
    constructor
    · rw [ask_tutor_full_prompt, String.data_append, String.data_append,
        List.append_assoc]
      exact List.prefix_append _ _
    · rw [ask_tutor_full_prompt, String.data_append]
      exact List.suffix_append _ _
  · intro p
    constructor
    · rw [generate_story_full_prompt, String.data_append, String.data_append,
        List.append_assoc]
      exact List.prefix_append _ _
    · rw [generate_story_full_prompt, String.data_append]
      exact List.suffix_append _ _
  · intro q rh
    have hbase : crewBaseSystem.data <+: (crew_system rh).data := by
      unfold crew_system
      by_cases ht : pyStrOptTruthy rh
      · rw [if_pos ht, String.data_append, String.data_append, String.data_append,
          List.append_assoc, List.append_assoc]
        exact List.prefix_append _ _
      · rw [if_neg ht]
    refine ⟨?_, ?_, ?_⟩
    · rw [crew_full_prompt, String.data_append, String.data_append, String.data_append]
      exact hbase.trans (by
        rw [List.append_assoc, List.append_assoc]
        exact List.prefix_append _ _)
    · rw [crew_full_prompt, String.data_append, String.data_append, String.data_append]
      exact ⟨(crew_system rh).data ++ "\n\nUser request:\n".data,
        "\n\nReturn a clear step-by-step plan and a short concise answer.".data,
        by rw [List.append_assoc]⟩
    · rw [crew_full_prompt, String.data_append]
      exact List.suffix_append _ _
  · intro configured endpoint p a req h
    have := request_payload_groq_chat configured endpoint (ask_tutor_full_prompt p)
      defaultModel (5/10) 2 a req h
    rw [this]
  · intro configured endpoint p a req h
    have := request_payload_groq_chat configured endpoint (generate_story_full_prompt p)
      defaultModel (8/10) 2 a req h
    rw [this]
  · intro configured endpoint q rh a req h
    have := request_payload_groq_chat configured endpoint (crew_full_prompt q rh)
      defaultModel (45/100) 2 a req h
    rw [this]

theorem prompt_templates_structure_witness :
    (tutorSystem.data <+: (ask_tutor_full_prompt "what is rain?").data ∧
      "what is rain?".data <:+ (ask_tutor_full_prompt "what is rain?").data) ∧
    (⟨defaultModel, [("user", ask_tutor_full_prompt "what is rain?")], 5/10⟩ :
        ChatRequest).messages = [("user", ask_tutor_full_prompt "what is rain?")] :=
  ⟨prompt_templates_structure.1 "what is rain?",
   prompt_templates_structure.2.2.2.1 true
     (fun _ => Except.ok ⟨none, "r"⟩) "what is rain?" 0
     ⟨defaultModel, [("user", ask_tutor_full_prompt "what is rain?")], 5/10⟩
     (by
       unfold ask_tutor groq_chat
       rw [if_pos rfl]
       have h3 : ((2 : Int) + 1).toNat = 2 + 1 := by decide
       rw [h3, groqAttempts_succ_ok _ _ _ _ _ _ _ _ rfl]
       exact List.mem_singleton.mpr rfl)⟩

/-- C8: the helper template appends the role hint to its fixed system
instruction exactly when the hint is supplied and non-empty: a missing
or empty hint leaves the system instruction unchanged, a non-empty hint
produces the base instruction followed by the role clause. -/
theorem crew_system_role_hint (rh : Option String) :
    (pyStrOptTruthy rh = false → crew_system rh = crewBaseSystem) ∧
    (∀ h : String, rh = some h → h ≠ "" →
      crew_system rh = crewBaseSystem ++ " You should act as: " ++ h ++ ".") ∧
    (crew_system rh = crewBaseSystem ↔ pyStrOptTruthy rh = false) := by
  have hfalse : pyStrOptTruthy rh = false → crew_system rh = crewBaseSystem := by
    intro h
    unfold crew_system
    rw [h]
    simp
  refine ⟨hfalse, ?_, ?_, hfalse⟩
  · intro h hrh hne
    unfold crew_system
    have hie : h.isEmpty = false := by
      cases hb : h.isEmpty
      · rfl
      · exact absurd ((String.isEmpty_iff h).mp hb) hne
    have ht : pyStrOptTruthy rh = true := by
      rw [hrh]
      simp [pyStrOptTruthy, hie]
    rw [if_pos ht, hrh]
    rfl
  · intro heq
    by_contra hne
    have ht : pyStrOptTruthy rh = true := by
      cases hb : pyStrOptTruthy rh
      · exact absurd hb hne
      · rfl
    unfold crew_system at heq
    rw [if_pos ht] at heq
    have hlen := congrArg String.length heq
    rw [String.length_append, String.length_append, String.length_append] at hlen
    have h20 : (" You should act as: " : String).length = 20 := rfl
    have h1 : ("." : String).length = 1 := rfl
    omega

theorem crew_system_role_hint_witness :
    crew_system none = crewBaseSystem ∧
    crew_system (some "planner") =
      crewBaseSystem ++ " You should act as: " ++ "planner" ++ "." :=
  ⟨(crew_system_role_hint none).1 rfl,
   (crew_system_role_hint (some "planner")).2.1 "planner" rfl (by decide)⟩

/-! Lemmas about the PDF text preparation. -/

lemma escapeChar_count_lt (c : Char) : (escapeChar c).count '<' = 0 := by
  unfold escapeChar
  by_cases h1 : c = '&'
  · rw [if_pos h1]; decide
  · rw [if_neg h1]
    by_cases h2 : c = '<'
    · rw [if_pos h2]; decide
    · rw [if_neg h2]
      by_cases h3 : c = '>'
      · rw [if_pos h3]; decide
      · rw [if_neg h3]
        simp [List.count_cons, h2]

lemma escapeChar_count_gt (c : Char) : (escapeChar c).count '>' = 0 := by
  unfold escapeChar
  by_cases h1 : c = '&'
  · rw [if_pos h1]; decide
  · rw [if_neg h1]
    by_cases h2 : c = '<'
    · rw [if_pos h2]; decide
    · rw [if_neg h2]
      by_cases h3 : c = '>'
      · rw [if_pos h3]; decide
      · rw [if_neg h3]
        simp [List.count_cons, h3]

lemma escapeChar_count_nl (c : Char) :
    (escapeChar c).count '\n' = if c = '\n' then 1 else 0 := by
  unfold escapeChar
  by_cases h1 : c = '&'
  · subst h1; decide
  · rw [if_neg h1]
    by_cases h2 : c = '<'
    · subst h2; decide
    · rw [if_neg h2]
      by_cases h3 : c = '>'
      · subst h3; decide
      · rw [if_neg h3]
        by_cases h4 : c = '\n'
        · subst h4; decide
        · simp [List.count_cons, h4]

lemma escapeList_count_lt (l : List Char) : (escapeList l).count '<' = 0 := by
  induction l with
  | nil => rfl
  | cons c cs ih =>
    rw [escapeList, List.count_append, escapeChar_count_lt, ih]

lemma escapeList_count_gt (l : List Char) : (escapeList l).count '>' = 0 := by
  induction l with
  | nil => rfl
  | cons c cs ih =>
    rw [escapeList, List.count_append, escapeChar_count_gt, ih]

lemma escapeList_count_nl (l : List Char) : (escapeList l).count '\n' = l.count '\n' := by
  induction l with
  | nil => rfl
  | cons c cs ih =>
    rw [escapeList, List.count_append, escapeChar_count_nl, ih]
    by_cases hc : c = '\n'
    · simp [List.count_cons, hc]
      omega
    · simp [List.count_cons, hc]

lemma replaceCharList_nl_count_nl (l : List Char) :
    (replaceCharList '\n' "<br/>".data l).count '\n' = 0 := by
  induction l with
  | nil => rfl
  | cons c cs ih =>
    rw [replaceCharList, List.count_append, ih]
    by_cases hc : c = '\n'
    · rw [if_pos hc]; decide
    · rw [if_neg hc]; simp [List.count_cons, hc]

lemma replaceCharList_nl_count_lt (l : List Char) :
    (replaceCharList '\n' "<br/>".data l).count '<' = l.count '\n' + l.count '<' := by
  induction l with
  | nil => rfl
  | cons c cs ih =>
    rw [replaceCharList, List.count_append, ih]
    by_cases hc : c = '\n'
    · rw [if_pos hc]
      have h1 : ("<br/>".data).count '<' = 1 := by decide
      rw [h1]
      subst hc
      simp [List.count_cons]
      omega
    · rw [if_neg hc]
      by_cases hl : c = '<'
      · subst hl
        simp [List.count_cons]
        omega
      · simp [List.count_cons, hc, hl]

/-- C7: `generate_pdf` escapes markup-significant characters in both
the title and the body before handing them to the layout engine (no
`<` or `>` from user text survives escaping), and replaces every line
break of the body with exactly one explicit `<br/>` marker: the
rendered body contains no line break and exactly one `<` per original
line break (user-text `<` having been escaped away).  In particular,
`generate_pdf "<b>Hi</b>" "line1\nline2"` submits the escaped literal
title and a body with one marker between the two lines. -/
theorem generate_pdf_escaping (title body : String) :
    ((generate_pdf title body).titleText.data.count '<' = 0 ∧
      (generate_pdf title body).titleText.data.count '>' = 0) ∧
    ((generate_pdf title body).bodyText.data.count '\n' = 0 ∧
      (generate_pdf title body).bodyText.data.count '<' = body.data.count '\n') ∧
    generate_pdf "<b>Hi</b>" "line1\nline2" =
      ⟨"&lt;b&gt;Hi&lt;/b&gt;", "line1<br/>line2"⟩ := by
  refine ⟨⟨?_, ?_⟩, ⟨?_, ?_⟩, ?_⟩
  · exact escapeList_count_lt title.data
  · exact escapeList_count_gt title.data
  · exact replaceCharList_nl_count_nl (escapeList body.data)
  · show (replaceCharList '\n' "<br/>".data (escapeList body.data)).count '<' = _
    rw [replaceCharList_nl_count_lt, escapeList_count_nl, escapeList_count_lt]
    omega
  · decide

/-- C3: the three response-shape variants of the extraction chain, at
the `groq_chat` level with an endpoint that succeeds on the first
attempt.  (1) First choice's message has a present, non-empty `content`
attribute: that content is returned.  (2) The message field is absent
and the first choice has a `text` attribute (or, failing that, a
`content` attribute): the attribute value is returned.  (3) Neither is
present: the full response serialized as text is returned.  No case
raises. -/
theorem groq_chat_response_shapes :
    (∀ (endpoint : Nat → Except PyExn PyResp) (p m : String) (t : ℚ) (r : Nat)
        (first : PyChoice) (rest : List PyChoice) (raw c : String),
        endpoint 0 = Except.ok ⟨some (first :: rest), raw⟩ →
        first.message = some (PyMessage.obj (some c)) → c ≠ "" →
        (groq_chat true endpoint p m t (r : Int)).1 = some c) ∧
    (∀ (endpoint : Nat → Except PyExn PyResp) (p m : String) (t : ℚ) (r : Nat)
        (first : PyChoice) (rest : List PyChoice) (raw tx : String),
        endpoint 0 = Except.ok ⟨some (first :: rest), raw⟩ →
        first.message = none → first.textAttr = some tx →
        (groq_chat true endpoint p m t (r : Int)).1 = some tx) ∧
    (∀ (endpoint : Nat → Except PyExn PyResp) (p m : String) (t : ℚ) (r : Nat)
        (first : PyChoice) (rest : List PyChoice) (raw c : String),
        endpoint 0 = Except.ok ⟨some (first :: rest), raw⟩ →
        first.message = none → first.textAttr = none → first.contentAttr = some c →
        (groq_chat true endpoint p m t (r : Int)).1 = some c) ∧
    (∀ (endpoint : Nat → Except PyExn PyResp) (p m : String) (t : ℚ) (r : Nat)
        (first : PyChoice) (rest : List PyChoice) (raw : String),
        endpoint 0 = Except.ok ⟨some (first :: rest), raw⟩ →
        first.message = none → first.textAttr = none → first.contentAttr = none →
        (groq_chat true endpoint p m t (r : Int)).1 = some raw) := by
  refine ⟨?_, ?_, ?_, ?_⟩
  · intro endpoint p m t r first rest raw c hok hmsg hc
    rw [groq_chat_first_ok endpoint p m t r _ hok]
    simp [extractText, hmsg, PyMessage.truthy, PyMessage.getattrContent, hc]
  · intro endpoint p m t r first rest raw tx hok hmsg htx
    rw [groq_chat_first_ok endpoint p m t r _ hok]
    simp [extractText, hmsg, attrFallback, htx]
  · intro endpoint p m t r first rest raw c hok hmsg htx hct
    rw [groq_chat_first_ok endpoint p m t r _ hok]
    simp [extractText, hmsg, attrFallback, htx, hct]
  · intro endpoint p m t r first rest raw hok hmsg htx hct
    rw [groq_chat_first_ok endpoint p m t r _ hok]
    simp [extractText, hmsg, attrFallback, htx, hct]

theorem groq_chat_response_shapes_witness :
    (groq_chat true
        (fun _ => Except.ok ⟨some [⟨some (PyMessage.obj (some "hi")), none, none⟩], "raw"⟩)
        "p" "m" 0 ((2 : Nat) : Int)).1 = some "hi" ∧
    (groq_chat true (fun _ => Except.ok ⟨some [⟨none, some "tx", none⟩], "raw"⟩)
        "p" "m" 0 ((2 : Nat) : Int)).1 = some "tx" ∧
    (groq_chat true (fun _ => Except.ok ⟨some [⟨none, none, some "ct"⟩], "raw"⟩)
        "p" "m" 0 ((2 : Nat) : Int)).1 = some "ct" ∧
    (groq_chat true (fun _ => Except.ok ⟨some [⟨none, none, none⟩], "raw"⟩)
        "p" "m" 0 ((2 : Nat) : Int)).1 = some "raw" :=
  ⟨groq_chat_response_shapes.1 _ "p" "m" 0 2 _ [] "raw" "hi" rfl rfl (by decide),
   groq_chat_response_shapes.2.1 _ "p" "m" 0 2 _ [] "raw" "tx" rfl rfl rfl,
   groq_chat_response_shapes.2.2.1 _ "p" "m" 0 2 _ [] "raw" "ct" rfl rfl rfl rfl,
   groq_chat_response_shapes.2.2.2 _ "p" "m" 0 2 _ [] "raw" rfl rfl rfl rfl⟩
